import Mathlib

/-!
Shallow embedding of `grapple/types/images.py` (wagtail-grapple): the
rendition allow-list check, the rendition resolver, the responsive
src-set builder, and the image query surface, together with proofs of
the specification claims about them.

Conventions of the embedding:
* The process-wide setting `grapple_settings.ALLOWED_IMAGE_FILTERS` is
  passed explicitly as an `AllowedFiltersSetting` value.
* The external asset-rendition engine (`instance.get_rendition`) is an
  explicit function argument; a Python exception escaping a resolver is
  an `Except.error`, a caught-and-swallowed failure surfaces as `none`.
* The external media-URL resolver (`get_media_item_url`) reads a stored
  URL attribute of the item it is given.
* Python's `str.join` is embedded as `str_join`.
-/

/-- The possible shapes of the `ALLOWED_IMAGE_FILTERS` setting: unset
(`None`), set to a non-list/non-tuple value, or set to a list/tuple of
filter strings. -/
inductive AllowedFiltersSetting where
  | absent : AllowedFiltersSetting
  | notAList (repr : String) : AllowedFiltersSetting
  | configuredList (l : List String) : AllowedFiltersSetting
deriving DecidableEq, Repr

/-- Embedding of `rendition_allowed`: `True` when the setting is `None`
or not a list/tuple, otherwise Python `in`, i.e. case-sensitive string
membership in the configured list. -/
def rendition_allowed (allowed_filters : AllowedFiltersSetting)
    (rendition_filter : String) : Bool :=
  match allowed_filters with
  | .absent => true
  | .notAList _ => true
  | .configuredList l => l.contains rendition_filter

/-- An image record: the model fields this file's resolvers read.
`fileName` is `instance.file.name` (`none` embeds Python `None`);
`mediaUrl` is the value the external media-URL resolver returns for the
image; `restricted` says whether the owning collection carries a view
restriction; `sourceBroken` marks a source asset the engine cannot
read. -/
structure Image where
  pk : Nat
  width : Int
  height : Int
  fileName : Option String
  mediaUrl : String
  restricted : Bool
  sourceBroken : Bool
deriving DecidableEq, Repr

/-- A generated rendition: the attributes the resolvers read back
(`get_media_item_url(img)` and `img.width`). -/
structure Rendition where
  url : String
  width : Int
deriving DecidableEq, Repr

/-- Embedding of `get_media_item_url` applied to an image. -/
def get_media_item_url (img : Image) : String :=
  img.mediaUrl

/-- Embedding of `get_media_item_url` applied to a rendition. -/
def get_media_item_url_r (r : Rendition) : String :=
  r.url

/-- Outcome of one call to the asset-rendition engine
(`instance.get_rendition(filters)`): a rendition, the distinguishable
`SourceImageIOError`, or any other exception. -/
inductive EngineResult where
  | ok (r : Rendition) : EngineResult
  | sourceImageIOError : EngineResult
  | otherError (msg : String) : EngineResult
deriving DecidableEq, Repr

/-- The asset-rendition engine as seen by one resolver call. -/
def Engine : Type := Image → String → EngineResult

/-- Embedding of Python `sep.join(parts)`. -/
def str_join (sep : String) : List String → String
  | [] => ""
  | [x] => x
  | x :: y :: xs => x ++ sep ++ str_join sep (y :: xs)

/-- The filter-specification string built on line 97:
`"|".join([f"{key}-{val}" for key, val in kwargs.items()])`, with the
keyword arguments already rendered to strings in iteration order. -/
def filter_spec_of (kwargs : List (String × String)) : String :=
  str_join "|" (kwargs.map fun kv => kv.1 ++ "-" ++ kv.2)

/-- Embedding of `ImageObjectType.resolve_rendition`: build the filter
specification, return `None` if it is not allowed, otherwise call the
engine, swallowing only `SourceImageIOError`. -/
def resolve_rendition (engine : Engine) (settings : AllowedFiltersSetting)
    (img : Image) (kwargs : List (String × String)) :
    Except String (Option Rendition) :=
  let filters := filter_spec_of kwargs
  if rendition_allowed settings filters then
    match engine img filters with
    | .ok r => .ok (some r)
    | .sourceImageIOError => .ok none
    | .otherError msg => .error msg
  else
    .ok none

/-- Claim C1, as frozen, asserts that an empty configured allow-list
permits every specification; the code returns `rendition_filter in []`,
which is `False` for every filter. -/
theorem rendition_allowed_empty_list_counterexample :
    rendition_allowed (AllowedFiltersSetting.configuredList []) "width-100"
      = false := by
  rfl

/-- Claim C1 (amended): `rendition_allowed` returns `True` whenever the
setting is absent or not a list/tuple; for a configured list it returns
`True` exactly when the filter is (case-sensitively) one of the
entries — so an empty configured list permits nothing; absence, not
emptiness, is the unrestricted sentinel. -/
theorem rendition_allowed_characterisation :
    (∀ f, rendition_allowed AllowedFiltersSetting.absent f = true) ∧
    (∀ r f, rendition_allowed (AllowedFiltersSetting.notAList r) f = true) ∧
    (∀ l f, rendition_allowed (AllowedFiltersSetting.configuredList l) f = true
      ↔ f ∈ l) := by
  refine ⟨fun _ => rfl, fun _ _ => rfl, fun l f => ?_⟩
  simp [rendition_allowed, List.contains, List.elem_eq_mem]

/-- Embedding of `ImageObjectType.resolve_url`: the media-URL resolver
applied to the image. -/
def resolve_url (img : Image) : String :=
  get_media_item_url img

/-- Embedding of the deprecated `ImageObjectType.resolve_src`: also the
media-URL resolver applied to the image. -/
def resolve_src (img : Image) : String :=
  get_media_item_url img

/-- Embedding of `ImageObjectType.resolve_aspect_ratio`:
`instance.width / instance.height`. The division is modelled exactly
over `ℚ`; Python raises `ZeroDivisionError` when the height is zero,
embedded as `none`. -/
def resolve_aspect_ratio (img : Image) : Option ℚ :=
  if img.height = 0 then none
  else some ((img.width : ℚ) / (img.height : ℚ))

/-- Embedding of `ImageObjectType.resolve_sizes`:
`f"(max-width: {instance.width}px) 100vw, {instance.width}px"`. -/
def resolve_sizes (img : Image) : String :=
  "(max-width: " ++ toString img.width ++ "px) 100vw, "
    ++ toString img.width ++ "px"

/-- A concrete public image with a stored file, for witnesses. -/
def imgA : Image :=
  { pk := 1, width := 640, height := 480, fileName := some "a.jpg",
    mediaUrl := "http://media/a.jpg", restricted := false,
    sourceBroken := false }

/-- A concrete image that differs from `imgA` everywhere except the
width, for witnesses. -/
def imgB : Image :=
  { pk := 3, width := 640, height := 123, fileName := none,
    mediaUrl := "http://media/b.jpg", restricted := true,
    sourceBroken := true }

/-- Claim C2: the filter specification is the keyword arguments joined
as `key-value` tokens separated by `|` in iteration order (empty for no
arguments, head token then `|` then the rest), and `resolve_rendition`
consults the engine only at that constructed string. -/
theorem filter_spec_construction :
    filter_spec_of [] = "" ∧
    (∀ k v rest, filter_spec_of ((k, v) :: rest) =
      if rest = [] then k ++ "-" ++ v
      else k ++ "-" ++ v ++ "|" ++ filter_spec_of rest) ∧
    (∀ settings img kwargs (engine₁ engine₂ : Engine),
      engine₁ img (filter_spec_of kwargs) = engine₂ img (filter_spec_of kwargs) →
      resolve_rendition engine₁ settings img kwargs
        = resolve_rendition engine₂ settings img kwargs) := by
  refine ⟨rfl, fun k v rest => ?_, fun settings img kwargs e₁ e₂ h => ?_⟩
  · cases rest with
    | nil => rfl
    | cons p rest' => simp [filter_spec_of, str_join, String.append_assoc]
  · simp only [resolve_rendition]
    rw [h]

/-- Witness for claim C2 at concrete inputs. -/
theorem filter_spec_construction_witness :
    resolve_rendition (fun _ s => EngineResult.ok ⟨s, 100⟩)
        AllowedFiltersSetting.absent imgA [("width", "100"), ("format", "webp")]
      = resolve_rendition (fun _ _ => EngineResult.ok ⟨"width-100|format-webp", 100⟩)
        AllowedFiltersSetting.absent imgA [("width", "100"), ("format", "webp")] :=
  filter_spec_construction.2.2 AllowedFiltersSetting.absent imgA
    [("width", "100"), ("format", "webp")] _ _ (by rfl)

/-- Claim C4: `resolve_rendition` returns `None` for a disallowed
specification without consulting the engine, returns `None` when the
engine raises `SourceImageIOError`, and lets any other engine failure
propagate. -/
theorem resolve_rendition_error_handling (settings : AllowedFiltersSetting)
    (img : Image) (kwargs : List (String × String)) :
    (rendition_allowed settings (filter_spec_of kwargs) = false →
      ∀ engine : Engine,
        resolve_rendition engine settings img kwargs = Except.ok none) ∧
    (∀ engine : Engine,
      rendition_allowed settings (filter_spec_of kwargs) = true →
      engine img (filter_spec_of kwargs) = EngineResult.sourceImageIOError →
      resolve_rendition engine settings img kwargs = Except.ok none) ∧
    (∀ (engine : Engine) (msg : String),
      rendition_allowed settings (filter_spec_of kwargs) = true →
      engine img (filter_spec_of kwargs) = EngineResult.otherError msg →
      resolve_rendition engine settings img kwargs = Except.error msg) := by
  refine ⟨fun h engine => ?_, fun engine h he => ?_, fun engine msg h he => ?_⟩
  · simp [resolve_rendition, h]
  · simp [resolve_rendition, h, he]
  · simp [resolve_rendition, h, he]

/-- Witness for claim C4: a disallowed width, an unreadable source, and
an engine-internal failure, at concrete inputs. -/
theorem resolve_rendition_error_handling_witness :
    resolve_rendition (fun _ s => EngineResult.ok ⟨s, 300⟩)
        (AllowedFiltersSetting.configuredList ["width-100", "width-200"])
        imgA [("width", "300")] = Except.ok none ∧
    resolve_rendition (fun _ _ => EngineResult.sourceImageIOError)
        (AllowedFiltersSetting.configuredList ["width-100", "width-200"])
        imgA [("width", "100")] = Except.ok none ∧
    resolve_rendition (fun _ _ => EngineResult.otherError "engine down")
        (AllowedFiltersSetting.configuredList ["width-100", "width-200"])
        imgA [("width", "100")] = Except.error "engine down" :=
  ⟨(resolve_rendition_error_handling _ imgA [("width", "300")]).1 (by decide) _,
   (resolve_rendition_error_handling _ imgA [("width", "100")]).2.1 _ (by decide) rfl,
   (resolve_rendition_error_handling _ imgA [("width", "100")]).2.2 _ _ (by decide) rfl⟩

/-- Claim C9: the deprecated `src` field and the `url` field resolve to
the same value, the media-URL resolver applied to the image. -/
theorem resolve_src_eq_resolve_url (img : Image) :
    resolve_src img = resolve_url img ∧
    resolve_url img = get_media_item_url img :=
  ⟨rfl, rfl⟩

/-- Claim C8: whenever the height is nonzero, the aspect ratio is the
exact quotient `width / height`; the value returned times the height
gives back the width. Zero height is the unguarded boundary case (the
division raises). -/
theorem resolve_aspect_ratio_spec (img : Image) (h : img.height ≠ 0) :
    resolve_aspect_ratio img = some ((img.width : ℚ) / (img.height : ℚ)) ∧
    ∀ q : ℚ, resolve_aspect_ratio img = some q →
      q * (img.height : ℚ) = (img.width : ℚ) := by
  constructor
  · simp [resolve_aspect_ratio, h]
  · intro q hq
    simp [resolve_aspect_ratio, h] at hq
    subst hq
    exact div_mul_cancel₀ _ (by exact_mod_cast h)

/-- Witness for claim C8 at a concrete 640×480 image. -/
theorem resolve_aspect_ratio_witness :
    imgA.height ≠ 0 ∧
    resolve_aspect_ratio imgA = some ((imgA.width : ℚ) / (imgA.height : ℚ)) :=
  ⟨by decide, (resolve_aspect_ratio_spec imgA (by decide)).1⟩

/-- Claim C10: the `sizes` field is exactly
`"(max-width: <width>px) 100vw, <width>px"` built from the stored pixel
width, and depends on no other image state. -/
theorem resolve_sizes_spec :
    (∀ img : Image, resolve_sizes img =
      "(max-width: " ++ toString img.width ++ "px) 100vw, "
        ++ toString img.width ++ "px") ∧
    (∀ img img' : Image, img'.width = img.width →
      resolve_sizes img' = resolve_sizes img) := by
  refine ⟨fun img => rfl, fun img img' h => ?_⟩
  simp [resolve_sizes, h]

/-- Witness for claim C10: the literal string at width 640, and
agreement between two images sharing only their width. -/
theorem resolve_sizes_witness :
    resolve_sizes imgA = "(max-width: 640px) 100vw, 640px" ∧
    resolve_sizes imgB = resolve_sizes imgA :=
  ⟨(resolve_sizes_spec.1 imgA).trans (by rfl),
   resolve_sizes_spec.2 imgA imgB rfl⟩

/-- The value of the local `filter_suffix` on line 135:
`f"|format-{format}" if format else ""`. -/
def format_filter (format : Option String) : String :=
  match format with
  | some f => "|format-" ++ f
  | none => ""

/-- The value of the local `format_kwarg` on line 136:
`{"format": format} if format else {}`. -/
def format_kwarg (format : Option String) : List (String × String) :=
  match format with
  | some f => [("format", f)]
  | none => []

/-- The list comprehension on lines 138-144: left-to-right evaluation
of `resolve_rendition` over the widths that pass the allow-list guard;
a propagating exception aborts the whole comprehension. -/
def resolve_renditions_for_widths (engine : Engine)
    (settings : AllowedFiltersSetting) (img : Image)
    (kw : List (String × String)) :
    List Int → Except String (List (Option Rendition))
  | [] => .ok []
  | w :: ws =>
    match resolve_rendition engine settings img (("width", toString w) :: kw) with
    | .error e => .error e
    | .ok r =>
      match resolve_renditions_for_widths engine settings img kw ws with
      | .error e => .error e
      | .ok rs => .ok (r :: rs)

/-- Embedding of `ImageObjectType.resolve_src_set`: if the image has a
file name, resolve a rendition per allowed width, drop the `None`
results, and join `"{url} {width}w"` descriptors with `", "`; with no
file name, return the empty string. -/
def resolve_src_set (engine : Engine) (settings : AllowedFiltersSetting)
    (img : Image) (sizes : List Int) (format : Option String) :
    Except String String :=
  match img.fileName with
  | some _ =>
    match resolve_renditions_for_widths engine settings img (format_kwarg format)
        (sizes.filter fun w =>
          rendition_allowed settings
            ("width-" ++ toString w ++ format_filter format)) with
    | .error e => .error e
    | .ok rendition_list =>
      .ok (str_join ", " ((rendition_list.filterMap id).map
        fun r => get_media_item_url_r r ++ " " ++ toString r.width ++ "w"))
  | none => .ok ""

/-- The pipeline claim C3 describes, in its own words and with no
file-name guard: walk the requested widths; for each width whose
`width-<N>` token (with `|format-<F>` appended when a format is given)
passes the allow-list check, resolve a rendition; discard widths whose
resolution failed or returned `None`; keep `"<url> <width>w"` for the
survivors. -/
def src_set_pipeline (engine : Engine) (settings : AllowedFiltersSetting)
    (img : Image) (format : Option String) :
    List Int → Except String (List String)
  | [] => .ok []
  | w :: ws =>
    if rendition_allowed settings
        ("width-" ++ toString w ++ format_filter format) then
      match resolve_rendition engine settings img
          (("width", toString w) :: format_kwarg format) with
      | .error e => .error e
      | .ok none => src_set_pipeline engine settings img format ws
      | .ok (some r) =>
        match src_set_pipeline engine settings img format ws with
        | .error e => .error e
        | .ok rest =>
          .ok ((get_media_item_url_r r ++ " " ++ toString r.width ++ "w") :: rest)
    else src_set_pipeline engine settings img format ws

/-- The result claim C3 predicts for every image: the surviving
descriptors joined with `", "`. -/
def src_set_claimed (engine : Engine) (settings : AllowedFiltersSetting)
    (img : Image) (sizes : List Int) (format : Option String) :
    Except String String :=
  match src_set_pipeline engine settings img format sizes with
  | .error e => .error e
  | .ok parts => .ok (str_join ", " parts)

/-- The claimed pipeline agrees with the comprehension-then-filter
shape of the code. -/
theorem src_set_pipeline_eq (engine : Engine)
    (settings : AllowedFiltersSetting) (img : Image) (format : Option String)
    (sizes : List Int) :
    src_set_pipeline engine settings img format sizes =
      match resolve_renditions_for_widths engine settings img
          (format_kwarg format)
          (sizes.filter fun w =>
            rendition_allowed settings
              ("width-" ++ toString w ++ format_filter format)) with
      | .error e => .error e
      | .ok l => .ok ((l.filterMap id).map
          fun r => get_media_item_url_r r ++ " " ++ toString r.width ++ "w") := by
  induction sizes with
  | nil => rfl
  | cons w ws ih =>
    simp only [src_set_pipeline, List.filter_cons]
    by_cases hw : rendition_allowed settings
        ("width-" ++ toString w ++ format_filter format) = true
    · rw [if_pos hw, if_pos hw]
      simp only [resolve_renditions_for_widths]
      cases hr : resolve_rendition engine settings img
          (("width", toString w) :: format_kwarg format) with
      | error e => rfl
      | ok r =>
        rw [ih]
        cases hrest : resolve_renditions_for_widths engine settings img
            (format_kwarg format)
            (ws.filter fun w =>
              rendition_allowed settings
                ("width-" ++ toString w ++ format_filter format)) with
        | error e => cases r <;> rfl
        | ok rs => cases r <;> rfl
    · rw [if_neg hw, if_neg hw]
      exact ih

/-- Claim C3, as frozen, covers every image; but for an image with no
stored file the code returns the empty string even when the allow-list
passes a width and the engine resolves it, so the claimed joined
descriptor string is not produced. `imgB` has no file name; with width
100 allowed and an engine that returns a rendition with URL `"u"` and
width 100, the claim predicts `"u 100w"` while the code returns
`""`. -/
theorem resolve_src_set_counterexample :
    resolve_src_set (fun _ _ => EngineResult.ok ⟨"u", 100⟩)
        AllowedFiltersSetting.absent imgB [100] none = Except.ok "" ∧
    src_set_claimed (fun _ _ => EngineResult.ok ⟨"u", 100⟩)
        AllowedFiltersSetting.absent imgB [100] none = Except.ok "u 100w" ∧
    Except.ok "" ≠ (Except.ok "u 100w" : Except String String) := by
  refine ⟨rfl, rfl, ?_⟩
  intro h
  have h2 : ("" : String) = "u 100w" := by injection h
  exact absurd h2 (by decide)

/-- Claim C3 (amended): for every image that has a stored file,
`resolve_src_set` resolves a rendition for each width whose `width-<N>`
token (with `|format-<F>` appended when a format is given) passes the
allow-list check, discards every width whose resolution failed or
returned null, and returns the survivors joined as `"<url> <width>w"`
pairs separated by `", "`. -/
theorem resolve_src_set_eq_claimed (engine : Engine)
    (settings : AllowedFiltersSetting) (img : Image) (sizes : List Int)
    (format : Option String) (h : img.fileName.isSome = true) :
    resolve_src_set engine settings img sizes format
      = src_set_claimed engine settings img sizes format := by
  obtain ⟨n, hn⟩ := Option.isSome_iff_exists.mp h
  rw [resolve_src_set, src_set_claimed, hn, src_set_pipeline_eq]
  cases hres : resolve_renditions_for_widths engine settings img
      (format_kwarg format)
      (sizes.filter fun w =>
        rendition_allowed settings
          ("width-" ++ toString w ++ format_filter format)) with
  | error e => rfl
  | ok l => rfl

/-- Witness for claim C3 (amended): the spec's own example shape —
widths 100 and 200 requested, only `width-100` allowed, no format. -/
theorem resolve_src_set_eq_claimed_witness :
    resolve_src_set (fun img s => EngineResult.ok ⟨img.mediaUrl ++ "@" ++ s, 100⟩)
        (AllowedFiltersSetting.configuredList ["width-100"])
        imgA [100, 200] none
      = src_set_claimed (fun img s => EngineResult.ok ⟨img.mediaUrl ++ "@" ++ s, 100⟩)
        (AllowedFiltersSetting.configuredList ["width-100"])
        imgA [100, 200] none :=
  resolve_src_set_eq_claimed _ _ imgA [100, 200] none rfl

/-- Claim C6: an image with no stored file yields the empty string for
every engine, allow-list setting, sizes list and format — in
particular the result does not depend on the engine, so no rendition
resolution is attempted. -/
theorem resolve_src_set_no_file (engine : Engine)
    (settings : AllowedFiltersSetting) (img : Image) (sizes : List Int)
    (format : Option String) (h : img.fileName = none) :
    resolve_src_set engine settings img sizes format = Except.ok "" := by
  rw [resolve_src_set, h]

/-- Witness for claim C6: a file-less image with an engine that only
fails, widths requested and a format given, still yields `""`. -/
theorem resolve_src_set_no_file_witness :
    resolve_src_set (fun _ _ => EngineResult.otherError "must not be called")
        AllowedFiltersSetting.absent imgB [100, 200] (some "webp")
      = Except.ok "" :=
  resolve_src_set_no_file _ _ imgB [100, 200] (some "webp") rfl

/-- Embedding of `resolve_image` (lines 173-182): filter the image
table to images whose owning collection has no view restrictions, then
Django `.get(pk=id)` — `None` when no row matches (`DoesNotExist` is
caught), the propagating `MultipleObjectsReturned` when several do. -/
def resolve_image (db : List Image) (pk : Nat) : Except String (Option Image) :=
  match (db.filter fun img => !img.restricted).filter
      (fun img => img.pk == pk) with
  | [] => .ok none
  | [img] => .ok (some img)
  | _ :: _ :: _ => .error "MultipleObjectsReturned"

/-- Filtering a pk-distinct image list by a pk held by one of its
members returns exactly that member. -/
theorem filter_pk_single (i : Nat) :
    ∀ l : List Image, (l.Pairwise fun a b => a.pk ≠ b.pk) →
      ∀ img, img ∈ l → img.pk = i →
        l.filter (fun x => x.pk == i) = [img] := by
  intro l
  induction l with
  | nil =>
    intro _ img h _
    cases h
  | cons a l' ih =>
    intro hp img hmem hpk
    rw [List.pairwise_cons] at hp
    rcases List.mem_cons.mp hmem with h | hmem'
    · subst h
      have hrest : l'.filter (fun x => x.pk == i) = [] := by
        rw [List.filter_eq_nil_iff]
        intro b hb
        simp only [beq_iff_eq]
        intro hbi
        exact hp.1 b hb (hpk.trans hbi.symm)
      simp [List.filter_cons, hpk, hrest]
    · have hne : (a.pk == i) = false := by
        simp only [beq_eq_false_iff_ne, ne_eq]
        intro hai
        exact hp.1 img hmem' (hai.trans hpk.symm)
      simp only [List.filter_cons, hne, Bool.false_eq_true, if_false]
      exact ih hp.2 img hmem' hpk

/-- Claim C5: with distinct primary keys, fetch-by-id returns the one
public-collection image whose pk matches, and returns `None` rather
than raising both when the pk is absent and when it belongs to an image
in a restricted collection. -/
theorem resolve_image_spec (db : List Image) (i : Nat)
    (huniq : db.Pairwise fun a b => a.pk ≠ b.pk) :
    (∀ img, img ∈ db → img.pk = i → img.restricted = false →
      resolve_image db i = Except.ok (some img)) ∧
    ((∀ img, img ∈ db → img.pk = i → img.restricted = true) →
      resolve_image db i = Except.ok none) := by
  constructor
  · intro img hmem hpk hres
    have hpub : img ∈ db.filter fun x => !x.restricted := by
      rw [List.mem_filter]
      exact ⟨hmem, by simp [hres]⟩
    have hpw : (db.filter fun x => !x.restricted).Pairwise
        (fun a b => a.pk ≠ b.pk) := huniq.filter _
    have hone := filter_pk_single i _ hpw img hpub hpk
    simp only [resolve_image]
    rw [hone]
  · intro h
    have hnil : (db.filter fun x => !x.restricted).filter
        (fun x => x.pk == i) = [] := by
      rw [List.filter_eq_nil_iff]
      intro b hb
      rw [List.mem_filter] at hb
      simp only [beq_iff_eq]
      intro hbi
      have hver := h b hb.1 hbi
      rw [hver] at hb
      simp at hb
    simp only [resolve_image]
    rw [hnil]

/-- A concrete image in a view-restricted collection, for witnesses. -/
def imgR : Image :=
  { pk := 2, width := 10, height := 10, fileName := some "r.jpg",
    mediaUrl := "http://media/r.jpg", restricted := true,
    sourceBroken := false }

/-- Witness for claim C5: a two-image table — the public image is
found by its pk, the restricted image's pk yields `None`, and a
nonexistent pk yields `None`. -/
theorem resolve_image_witness :
    resolve_image [imgA, imgR] 1 = Except.ok (some imgA) ∧
    resolve_image [imgA, imgR] 2 = Except.ok none ∧
    resolve_image [imgA, imgR] 99 = Except.ok none :=
  ⟨(resolve_image_spec [imgA, imgR] 1 (by decide)).1 imgA (by decide)
      (by decide) (by decide),
   (resolve_image_spec [imgA, imgR] 2 (by decide)).2 (by decide),
   (resolve_image_spec [imgA, imgR] 99 (by decide)).2 (by decide)⟩

/-- One record of the rendition store: which image, which filter
specification, which rendition. -/
structure StoreEntry where
  imagePk : Nat
  filterSpec : String
  rendition : Rendition
deriving DecidableEq, Repr

/-- The set of generated renditions held by the storage layer. -/
abbrev RenditionStore : Type := List StoreEntry

/-- Modelled from the spec: deterministic derivation of a fresh
rendition from the source image and the filter specification (the
actual derived file is produced by the external engine; only
determinism matters for the idempotence claim). -/
def mkRendition (img : Image) (spec : String) : Rendition :=
  { url := img.mediaUrl ++ "?spec=" ++ spec, width := img.width }

/-- Modelled from the spec: the asset-rendition engine's
"get-or-create rendition for filter spec" (`Image.get_rendition` of the
external CMS library, which is not part of this repository's source):
return the stored rendition of this image for this specification when
one exists, otherwise create, record and return a new one; signal the
distinguishable source-unreadable failure for a broken source asset. -/
def get_or_create_rendition (store : RenditionStore) (img : Image)
    (spec : String) : EngineResult × RenditionStore :=
  if img.sourceBroken then (.sourceImageIOError, store)
  else
    match store.find? (fun e => e.imagePk == img.pk && e.filterSpec == spec) with
    | some e => (.ok e.rendition, store)
    | none =>
      (.ok (mkRendition img spec),
        ⟨img.pk, spec, mkRendition img spec⟩ :: store)

/-- Embedding of `resolve_rendition` with its `instance.get_rendition`
call bound to the stateful get-or-create engine, threading the
rendition store through. -/
def resolve_rendition_st (settings : AllowedFiltersSetting)
    (store : RenditionStore) (img : Image)
    (kwargs : List (String × String)) :
    Except String (Option Rendition) × RenditionStore :=
  let filters := filter_spec_of kwargs
  if rendition_allowed settings filters then
    match get_or_create_rendition store img filters with
    | (.ok r, store') => (.ok (some r), store')
    | (.sourceImageIOError, store') => (.ok none, store')
    | (.otherError msg, store') => (.error msg, store')
  else
    (.ok none, store)

/-- Claim C7: a second resolution call with the identical filter
specification against the same image returns exactly what the first
returned and leaves the store as the first left it — the same
rendition comes back and no duplicate entry is created. -/
theorem rendition_fetch_idempotent (settings : AllowedFiltersSetting)
    (store : RenditionStore) (img : Image)
    (kwargs : List (String × String)) :
    resolve_rendition_st settings
        (resolve_rendition_st settings store img kwargs).2 img kwargs
      = resolve_rendition_st settings store img kwargs := by
  by_cases hall : rendition_allowed settings (filter_spec_of kwargs) = true
  · by_cases hbro : img.sourceBroken = true
    · have h1 : resolve_rendition_st settings store img kwargs
          = (.ok none, store) := by
        simp only [resolve_rendition_st, get_or_create_rendition]
        rw [if_pos hall, if_pos hbro]
      rw [h1]
      exact h1
    · cases hf : store.find?
          (fun e => e.imagePk == img.pk
            && e.filterSpec == filter_spec_of kwargs) with
      | some e =>
        have hg : get_or_create_rendition store img (filter_spec_of kwargs)
            = (.ok e.rendition, store) := by
          simp only [get_or_create_rendition]
          rw [if_neg hbro, hf]
        have h1 : resolve_rendition_st settings store img kwargs
            = (.ok (some e.rendition), store) := by
          simp only [resolve_rendition_st]
          rw [if_pos hall, hg]
        rw [h1]
        simp only [resolve_rendition_st]
        rw [if_pos hall, hg]
      | none =>
        have hg1 : get_or_create_rendition store img (filter_spec_of kwargs)
            = (.ok (mkRendition img (filter_spec_of kwargs)),
                ⟨img.pk, filter_spec_of kwargs,
                  mkRendition img (filter_spec_of kwargs)⟩ :: store) := by
          simp only [get_or_create_rendition]
          rw [if_neg hbro, hf]
        have hfind2 :
            ((⟨img.pk, filter_spec_of kwargs,
                mkRendition img (filter_spec_of kwargs)⟩ : StoreEntry)
              :: store).find?
              (fun e => e.imagePk == img.pk
                && e.filterSpec == filter_spec_of kwargs)
            = some ⟨img.pk, filter_spec_of kwargs,
                mkRendition img (filter_spec_of kwargs)⟩ := by
          rw [List.find?_cons_of_pos]
          simp
        have hg2 : get_or_create_rendition
            (⟨img.pk, filter_spec_of kwargs,
              mkRendition img (filter_spec_of kwargs)⟩ :: store)
            img (filter_spec_of kwargs)
            = (.ok (mkRendition img (filter_spec_of kwargs)),
                ⟨img.pk, filter_spec_of kwargs,
                  mkRendition img (filter_spec_of kwargs)⟩ :: store) := by
          simp only [get_or_create_rendition]
          rw [if_neg hbro, hfind2]
        have h1 : resolve_rendition_st settings store img kwargs
            = (.ok (some (mkRendition img (filter_spec_of kwargs))),
                ⟨img.pk, filter_spec_of kwargs,
                  mkRendition img (filter_spec_of kwargs)⟩ :: store) := by
          simp only [resolve_rendition_st]
          rw [if_pos hall, hg1]
        rw [h1]
        simp only [resolve_rendition_st]
        rw [if_pos hall, hg2]
  · have h1 : resolve_rendition_st settings store img kwargs
        = (.ok none, store) := by
      simp only [resolve_rendition_st]
      rw [if_neg hall]
    rw [h1]
    exact h1
